import Mathlib

/-!
Verification of the justgo888/ThreadPool repository.

The repository contains two near-duplicate C++ thread-pool designs:
src/ThreadPool1.0 (ThreadPool.h / ThreadPool.cpp, with a hand-rolled
Any / Semaphore / Result future bridge) and src/ThreaadPool2.0
(ThreadPool.hpp, built on std::packaged_task and std::future).

This file gives a shallow embedding of the data model and of the
operations of both versions: pure functions become Lean functions,
the per-worker consume loop becomes an explicit step function on a
worker-view state, and the nondeterministic inputs of a step (whether
a condition-variable wait timed out, the measured idle duration, the
outcome of a task body) are passed as oracle arguments.  Machine ints
are modelled as Int (counter overflow plays no role in any claim),
and a task body that may raise a fault is modelled as returning
Except Fault.
-/

/-- PoolMode (identical enum in both versions): fixed worker count
versus cached (elastic) growth. -/
inductive PoolMode where
  | MODE_FIXED
  | MODE_CACHED
  deriving DecidableEq, Repr

/-- A fault (C++ exception) raised by an executing task body. -/
structure Fault where
  msg : String
  deriving DecidableEq, Repr

namespace ThreadPool1

/-- THREAD_MAX_IDLE_TIME (ThreadPool.cpp line 5): idle threshold in
seconds for the cached-mode culling path. -/
def THREAD_MAX_IDLE_TIME : Int := 60

/-- The Any type-erased value container (ThreadPool.h lines 16-64).
Modelled as a tagged value: a default-constructed Any holds nothing,
and the embedding distinguishes a stored C-string from a stored int,
which is what the claims need. -/
inductive Any where
  | nil
  | str (s : String)
  | int (n : Int)
  deriving DecidableEq, Repr

/-- The Result future bridge (ThreadPool.h lines 96-112): a value
slot any_, the counter resLimit_ of the embedded Semaphore sem_, and
the validity flag isValid_. -/
structure Result where
  any_ : Any
  semCount : Int
  isValid_ : Bool
  deriving DecidableEq, Repr

/-- Result::Result(task, isValid) (ThreadPool.cpp lines 8-12): a
fresh slot with a default-constructed Any, a Semaphore at limit 0,
and the given validity flag.  The back-pointer stored by
task_->setResult(this) is represented by passing the Result explicitly
to Task.exec below. -/
def Result.construct (isValid : Bool) : Result :=
  { any_ := Any.nil, semCount := 0, isValid_ := isValid }

/-- Result::setVal (ThreadPool.cpp lines 15-19): store the value and
sem_.post() (resLimit_++). -/
def Result.setVal (r : Result) (a : Any) : Result :=
  { r with any_ := a, semCount := r.semCount + 1 }

/-- Outcome of a call to Result::get: either the call returns a value,
or it blocks in sem_.wait() with no post pending. -/
inductive GetOutcome where
  | ret (a : Any)
  | blocked
  deriving DecidableEq, Repr

/-- Result::get (ThreadPool.cpp lines 21-29), verbatim structure:
if (isValid_) return ""; then sem_.wait() (blocks unless resLimit_ > 0)
and return any_. -/
def Result.get (r : Result) : GetOutcome :=
  if r.isValid_ then GetOutcome.ret (Any.str "")
  else if r.semCount > 0 then GetOutcome.ret r.any_
  else GetOutcome.blocked

/-- Task::exec (ThreadPool.cpp lines 38-44): if the raw result_
pointer is non-null, call run() and post its value via setVal.  The
body run() is passed as its outcome; there is no handler around it,
so a fault from run() propagates out of exec. -/
def Task.exec (result_ : Option Result) (run : Except Fault Any) :
    Except Fault (Option Result) :=
  match result_ with
  | none => Except.ok none
  | some r =>
    match run with
    | Except.ok a => Except.ok (some (r.setVal a))
    | Except.error e => Except.error e

/-- The ThreadPool state (ThreadPool.h lines 190-208).  threadMap_ is
represented by its key list (the registered worker ids); taskQue_ by
the list of queued task ids, in FIFO order. -/
structure ThreadPool where
  threadMap_ : List Nat
  initThreadSize_ : Int
  threadSizeThreshHold_ : Int
  curThreadNum_ : Int
  idleThreadNum_ : Int
  taskQue_ : List Nat
  taskNum_ : Int
  taskQueMaxThreshHold_ : Int
  poolMode_ : PoolMode
  isPoolRunning_ : Bool
  deriving DecidableEq, Repr

/-- ThreadPool::ThreadPool (ThreadPool.cpp lines 85-88): member-
initializes the configuration and zeroes the counters.  No parameter
is validated and no worker is started.  The source leaves
isPoolRunning_ uninitialized; it is modelled as false, the value
start() has not yet set. -/
def ThreadPool.construct (initThreadSize threadthreshhold taskthreshhold : Int)
    (mode : PoolMode) : ThreadPool :=
  { threadMap_ := []
    initThreadSize_ := initThreadSize
    threadSizeThreshHold_ := threadthreshhold
    curThreadNum_ := 0
    idleThreadNum_ := 0
    taskQue_ := []
    taskNum_ := 0
    taskQueMaxThreshHold_ := taskthreshhold
    poolMode_ := mode
    isPoolRunning_ := false }

/-- Outcome of ThreadPool::submitTask: the pool state after the call,
the Result returned to the submitter, and the value of the global
Thread::generateId_ counter after the call. -/
structure SubmitOut where
  pool : ThreadPool
  res : Result
  gAfter : Nat
  deriving DecidableEq, Repr

/-- ThreadPool::submitTask (ThreadPool.cpp lines 99-132).  The
wait_for on the queue-capacity predicate is modelled by its sequential
outcome: the submission is accepted exactly when the queue currently
has room (no concurrent consumer runs during the embedded call).  On
timeout the call returns Result(sp, false) without enqueueing.  On
success it enqueues, increments taskNum_, and in MODE_CACHED spawns a
new worker (registered under the next global thread id g) when
curThreadNum_ < threadSizeThreshHold_ and taskNum_ > idleThreadNum_,
incrementing curThreadNum_ and idleThreadNum_.  The C++ comparison
taskQue_.size() < taskQueMaxThreshHold_ is modelled over Int
(the two agree for the nonnegative thresholds the pool is built with). -/
def ThreadPool.submitTask (p : ThreadPool) (taskId : Nat) (g : Nat) : SubmitOut :=
  if (p.taskQue_.length : Int) < p.taskQueMaxThreshHold_ then
    let p1 : ThreadPool :=
      { p with taskQue_ := p.taskQue_ ++ [taskId], taskNum_ := p.taskNum_ + 1 }
    if p1.poolMode_ = PoolMode.MODE_CACHED ∧
        p1.curThreadNum_ < p1.threadSizeThreshHold_ ∧
        p1.taskNum_ > p1.idleThreadNum_ then
      { pool :=
          { p1 with
            threadMap_ := p1.threadMap_ ++ [g]
            curThreadNum_ := p1.curThreadNum_ + 1
            idleThreadNum_ := p1.idleThreadNum_ + 1 }
        res := Result.construct true
        gAfter := g + 1 }
    else
      { pool := p1, res := Result.construct true, gAfter := g }
  else
    { pool := p, res := Result.construct false, gAfter := g }

/-- The destructor ~ThreadPool (ThreadPool.cpp lines 90-97) first
sets isPoolRunning_ = false (then notifies all workers). -/
def ThreadPool.dtorBegin (p : ThreadPool) : ThreadPool :=
  { p with isPoolRunning_ := false }

/-- The predicate of the exitCond_.wait in ~ThreadPool (ThreadPool.cpp
lines 95-96): the destructor returns once threadMap_.size() == 0,
i.e. once the live-worker registry is empty. -/
def ThreadPool.dtorWaitPred (p : ThreadPool) : Bool :=
  p.threadMap_.isEmpty

/-- Worker-view state of the consume loop threadFunc: the shared pool
state plus the ghost list of task ids executed by this worker, in
execution order. -/
structure WState where
  pool : ThreadPool
  executed : List Nat
  deriving DecidableEq, Repr

/-- Outcome of one pass of the loop body of ThreadPool::threadFunc. -/
inductive IterOut where
  | exitShutdown (s : WState)
  | exitCull (s : WState)
  | looped (s : WState)
  deriving DecidableEq, Repr

/-- One pass of ThreadPool::threadFunc (ThreadPool.cpp lines 156-250)
for the worker with id tid.  With the queue empty: if the pool is no
longer running, erase the own registry entry and return (the
clean-shutdown exit, lines 180-187); else in MODE_CACHED, when the
1-second wait_for timed out (oracle timedOut) and the measured idle
duration dur reached THREAD_MAX_IDLE_TIME with curThreadNum_ above
initThreadSize_, erase the own entry, decrement curThreadNum_ and
idleThreadNum_, and return (the culling exit, lines 189-211);
otherwise keep waiting.  With a non-empty queue: pop the head task,
decrement taskNum_, and execute it via Task::exec on the valid Result
created at submission; run outcomes come from the oracle runOf.  A
fault from the body propagates out of the loop (there is no handler).
idleThreadNum_ is decremented before execution and incremented after
it (lines 220 and 247), a net zero across one completed pass. -/
def threadFuncIter (tid : Nat) (timedOut : Bool) (dur : Int)
    (runOf : Nat → Except Fault Any) (s : WState) : Except Fault IterOut :=
  match s.pool.taskQue_ with
  | [] =>
    if s.pool.isPoolRunning_ = false then
      Except.ok (IterOut.exitShutdown
        { s with pool := { s.pool with threadMap_ := s.pool.threadMap_.erase tid } })
    else if s.pool.poolMode_ = PoolMode.MODE_CACHED then
      if timedOut then
        if dur ≥ THREAD_MAX_IDLE_TIME ∧
            s.pool.curThreadNum_ > s.pool.initThreadSize_ then
          Except.ok (IterOut.exitCull
            { s with pool :=
                { s.pool with
                  threadMap_ := s.pool.threadMap_.erase tid
                  curThreadNum_ := s.pool.curThreadNum_ - 1
                  idleThreadNum_ := s.pool.idleThreadNum_ - 1 } })
        else Except.ok (IterOut.looped s)
      else Except.ok (IterOut.looped s)
    else Except.ok (IterOut.looped s)
  | t :: rest =>
    match Task.exec (some (Result.construct true)) (runOf t) with
    | Except.error e => Except.error e
    | Except.ok _ =>
      Except.ok (IterOut.looped
        { pool := { s.pool with taskQue_ := rest, taskNum_ := s.pool.taskNum_ - 1 }
          executed := s.executed ++ [t] })

/-- Outcome of iterating the consume loop a bounded number of times. -/
inductive RunOut where
  | stillLooping (s : WState)
  | exitedShutdown (s : WState)
  | exitedCull (s : WState)
  deriving DecidableEq, Repr

/-- Iterate threadFuncIter up to the given fuel; the oracles are
indexed by the remaining fuel. -/
def runWorker (tid : Nat) (touts : Nat → Bool) (durs : Nat → Int)
    (runOf : Nat → Except Fault Any) : Nat → WState → Except Fault RunOut
  | 0, s => Except.ok (RunOut.stillLooping s)
  | n + 1, s =>
    match threadFuncIter tid (touts n) (durs n) runOf s with
    | Except.error e => Except.error e
    | Except.ok (IterOut.exitShutdown s') => Except.ok (RunOut.exitedShutdown s')
    | Except.ok (IterOut.exitCull s') => Except.ok (RunOut.exitedCull s')
    | Except.ok (IterOut.looped s') => runWorker tid touts durs runOf n s'

end ThreadPool1

namespace ThreadPool2

/-- TASK_MAX_THRESHHOLD (ThreadPool.hpp line 16): default queue
capacity of version 2.0. -/
def TASK_MAX_THRESHHOLD : Int := 2

/-- THREAD_MAX_THRESHHOLD (ThreadPool.hpp line 17): default maximum
worker count. -/
def THREAD_MAX_THRESHHOLD : Int := 1024

/-- THREAD_MAX_IDLE_TIME (ThreadPool.hpp line 18): idle threshold in
seconds for the cached-mode culling path. -/
def THREAD_MAX_IDLE_TIME : Int := 60

/-- The shared state of a std::future as the submitter can observe it:
not yet ready, holding a value, or holding a stored fault. -/
inductive FutState where
  | pending
  | value (v : Int)
  | fault (e : Fault)
  deriving DecidableEq, Repr

/-- Invoking a std::packaged_task (the wrapped task built in
submitTask, ThreadPool.hpp line 95): the underlying computation runs
and its value, or the fault it raised, is stored in the shared state
of the future.  The invocation itself returns normally either way;
this is the documented contract of std::packaged_task::operator(). -/
def packagedTaskRun (comp : Except Fault Int) : FutState :=
  match comp with
  | Except.ok v => FutState.value v
  | Except.error e => FutState.fault e

/-- The ThreadPool state (ThreadPool.hpp lines 252-271).  threadMap_
is represented by its key list; taskQue_ by the list of queued task
ids in FIFO order. -/
structure ThreadPool where
  threadMap_ : List Nat
  initThreadSize_ : Int
  maxThreadSize_ : Int
  currentThreadNum_ : Int
  idleThreadNum_ : Int
  taskQue_ : List Nat
  taskSize_ : Int
  taskMaxSize_ : Int
  poolmode_ : PoolMode
  isRunning_ : Bool
  deriving DecidableEq, Repr

/-- ThreadPool::ThreadPool (ThreadPool.hpp lines 72-75): member-
initializes the configuration, zeroes the counters, and sets
isRunning_ to false.  No parameter is validated and no worker is
started. -/
def ThreadPool.construct (poolmode : PoolMode)
    (initthreadsize maxthreadsize taskmaxsize : Int) : ThreadPool :=
  { threadMap_ := []
    initThreadSize_ := initthreadsize
    maxThreadSize_ := maxthreadsize
    currentThreadNum_ := 0
    idleThreadNum_ := 0
    taskQue_ := []
    taskSize_ := 0
    taskMaxSize_ := taskmaxsize
    poolmode_ := poolmode
    isRunning_ := false }

/-- Outcome of ThreadPool::submitTask: the pool state after the call,
the future returned to the submitter, whether the submission was
accepted, and the global Thread::generateId_ counter after the call. -/
structure SubmitOut where
  pool : ThreadPool
  future : FutState
  accepted : Bool
  gAfter : Nat
  deriving DecidableEq, Repr

/-- ThreadPool::submitTask (ThreadPool.hpp lines 89-136).  The
wait_for on notFull_ is modelled by its sequential outcome: accepted
exactly when the queue currently has room.  On timeout a substitute
packaged task returning a default value is run on the spot and its
ready future is returned (lines 104-109).  On success the wrapped
task is enqueued, taskSize_ is incremented, and in MODE_CACHED a new
worker (registered under the next global thread id g) is spawned when
taskQue_.size() > idleThreadNum_ and currentThreadNum_ <
maxThreadSize_, incrementing currentThreadNum_ and idleThreadNum_
(lines 120-133). -/
def ThreadPool.submitTask (p : ThreadPool) (taskId : Nat) (g : Nat) : SubmitOut :=
  if (p.taskQue_.length : Int) < p.taskMaxSize_ then
    let p1 : ThreadPool :=
      { p with taskQue_ := p.taskQue_ ++ [taskId], taskSize_ := p.taskSize_ + 1 }
    if p1.poolmode_ = PoolMode.MODE_CACHED ∧
        (p1.taskQue_.length : Int) > p1.idleThreadNum_ ∧
        p1.currentThreadNum_ < p1.maxThreadSize_ then
      { pool :=
          { p1 with
            threadMap_ := p1.threadMap_ ++ [g]
            currentThreadNum_ := p1.currentThreadNum_ + 1
            idleThreadNum_ := p1.idleThreadNum_ + 1 }
        future := FutState.pending
        accepted := true
        gAfter := g + 1 }
    else
      { pool := p1, future := FutState.pending, accepted := true, gAfter := g }
  else
    { pool := p, future := FutState.value 0, accepted := false, gAfter := g }

/-- The destructor ~ThreadPool (ThreadPool.hpp lines 77-86) first
sets isRunning_ = false (then notifies all workers). -/
def ThreadPool.dtorBegin (p : ThreadPool) : ThreadPool :=
  { p with isRunning_ := false }

/-- The predicate of the exitCond_.wait in ~ThreadPool (ThreadPool.hpp
lines 84-85): the destructor returns once taskQue_.size() == 0.  Note
that this tests the task queue, not the live-worker registry
threadMap_. -/
def ThreadPool.dtorWaitPred (p : ThreadPool) : Bool :=
  p.taskQue_.isEmpty

/-- Worker-view state of the consume loop threadFunc: the shared pool
state, the ghost list of task ids executed by this worker in
execution order, and the ghost association of each executed task id
with the state its future was left in. -/
structure WState where
  pool : ThreadPool
  executed : List Nat
  futures : List (Nat × FutState)
  deriving DecidableEq, Repr

/-- Outcome of one pass of the loop body of ThreadPool::threadFunc. -/
inductive IterOut where
  | exitShutdown (s : WState)
  | exitCull (s : WState)
  | looped (s : WState)
  deriving DecidableEq, Repr

/-- One pass of ThreadPool::threadFunc (ThreadPool.hpp lines 168-250)
for the worker with id tid.  With the queue empty: if the pool is no
longer running, erase the own registry entry and return (the
clean-shutdown exit, lines 188-195); else in MODE_CACHED, when the
1-second wait_for timed out (oracle timedOut) and the measured idle
duration dur reached THREAD_MAX_IDLE_TIME with currentThreadNum_
above initThreadSize_, erase the own entry, decrement
currentThreadNum_ and idleThreadNum_, and return (the culling exit,
lines 197-215); otherwise keep waiting.  With a non-empty queue: pop
the head task, decrement taskSize_, and invoke the wrapped
packaged_task, which stores the outcome of the underlying computation
(oracle comp) in the shared state of its future; the invocation never
raises, so the loop always continues.  idleThreadNum_ is decremented
before execution and incremented after it (lines 221 and 247), a net
zero across one completed pass. -/
def threadFuncIter (tid : Nat) (timedOut : Bool) (dur : Int)
    (comp : Nat → Except Fault Int) (s : WState) : IterOut :=
  match s.pool.taskQue_ with
  | [] =>
    if s.pool.isRunning_ = false then
      IterOut.exitShutdown
        { s with pool := { s.pool with threadMap_ := s.pool.threadMap_.erase tid } }
    else if s.pool.poolmode_ = PoolMode.MODE_CACHED then
      if timedOut then
        if dur ≥ THREAD_MAX_IDLE_TIME ∧
            s.pool.currentThreadNum_ > s.pool.initThreadSize_ then
          IterOut.exitCull
            { s with pool :=
                { s.pool with
                  threadMap_ := s.pool.threadMap_.erase tid
                  currentThreadNum_ := s.pool.currentThreadNum_ - 1
                  idleThreadNum_ := s.pool.idleThreadNum_ - 1 } }
        else IterOut.looped s
      else IterOut.looped s
    else IterOut.looped s
  | t :: rest =>
    IterOut.looped
      { pool := { s.pool with taskQue_ := rest, taskSize_ := s.pool.taskSize_ - 1 }
        executed := s.executed ++ [t]
        futures := s.futures ++ [(t, packagedTaskRun (comp t))] }

/-- Outcome of iterating the consume loop a bounded number of times. -/
inductive RunOut where
  | stillLooping (s : WState)
  | exitedShutdown (s : WState)
  | exitedCull (s : WState)
  deriving DecidableEq, Repr

/-- Iterate threadFuncIter up to the given fuel; the oracles are
indexed by the remaining fuel. -/
def runWorker (tid : Nat) (touts : Nat → Bool) (durs : Nat → Int)
    (comp : Nat → Except Fault Int) : Nat → WState → RunOut
  | 0, s => RunOut.stillLooping s
  | n + 1, s =>
    match threadFuncIter tid (touts n) (durs n) comp s with
    | IterOut.exitShutdown s' => RunOut.exitedShutdown s'
    | IterOut.exitCull s' => RunOut.exitedCull s'
    | IterOut.looped s' => runWorker tid touts durs comp n s'

end ThreadPool2

namespace ThreadStart

/-!
The worker-identity machinery shared verbatim by both versions.
Thread::generateId_ is a process-global static int, initialized to 0
once per process (ThreadPool.cpp line 52, ThreadPool.hpp line 62);
every Thread constructor stores generateId_++ as its threadId_
(ThreadPool.cpp lines 58-61, ThreadPool.hpp lines 37-42).

ThreadPool::start() runs two loops (ThreadPool.cpp lines 134-154,
ThreadPool.hpp lines 138-156): the first creates initThreadSize_
Thread objects and emplaces each one into threadMap_ under its
threadId_; the second, for i = 0 .. initThreadSize_ - 1, accesses
threadMap_[i] and calls ->start() on the stored unique_ptr.
-/

/-- The first loop of start(): starting from the global counter value
g, create n Thread objects, returning the list of threadMap_ keys
they were registered under together with the counter value after the
loop. -/
def startCreateLoop (g : Nat) : Nat → List Nat × Nat
  | 0 => ([], g)
  | n + 1 =>
    let r := startCreateLoop g n
    (r.1 ++ [r.2], r.2 + 1)

/-- An access threadMap_[i] in the second loop of start():
std::unordered_map::operator[] finds the mapped unique_ptr when the
key is present; when it is absent it default-constructs a null
unique_ptr, so the subsequent ->start() dereferences an empty thread
handle — modelled as none. -/
def threadMapAccess (keys : List Nat) (i : Nat) : Option Nat :=
  if i ∈ keys then some i else none

/-- Whether every access of the second loop of start() finds a
registered worker. -/
def startAccessesOk (keys : List Nat) (n : Nat) : Prop :=
  ∀ i < n, threadMapAccess keys i = some i

instance (keys : List Nat) (n : Nat) : Decidable (startAccessesOk keys n) :=
  inferInstanceAs (Decidable (∀ i < n, threadMapAccess keys i = some i))

theorem startCreateLoop_counter (g : Nat) :
    ∀ n : Nat, (startCreateLoop g n).2 = g + n := by
  intro n
  induction n with
  | zero => rfl
  | succ k ih =>
    simp [startCreateLoop, ih]
    omega

theorem mem_startCreateLoop (g : Nat) :
    ∀ n i : Nat, i ∈ (startCreateLoop g n).1 ↔ (g ≤ i ∧ i < g + n) := by
  intro n
  induction n with
  | zero => intro i; simp [startCreateLoop]
  | succ k ih =>
    intro i
    simp [startCreateLoop, startCreateLoop_counter, ih i]
    omega

end ThreadStart

/-- Modelled from the spec (section 4.4): the configuration validity
predicate that construct is claimed to enforce, namely
0 < initialCount, initialCount ≤ maxCount and 0 < queueCapacity.
Neither constructor in the source contains any such check; this
definition exists only to be compared against the constructors. -/
def specValidConfig (initialCount maxCount queueCapacity : Int) : Prop :=
  0 < initialCount ∧ initialCount ≤ maxCount ∧ 0 < queueCapacity

instance (i m q : Int) : Decidable (specValidConfig i m q) :=
  inferInstanceAs (Decidable (0 < i ∧ i ≤ m ∧ 0 < q))

/-!
Sample states used by the concrete-input theorems below.
-/

/-- A 1.0 pool whose task queue has been fully drained while two
workers (ids 0 and 1) are still registered and the pool is running. -/
def drainedPool1 : ThreadPool1.ThreadPool :=
  { ThreadPool1.ThreadPool.construct 2 1024 4 PoolMode.MODE_FIXED with
    threadMap_ := [0, 1]
    curThreadNum_ := 2
    idleThreadNum_ := 2
    isPoolRunning_ := true }

/-- A 2.0 pool whose task queue has been fully drained while two
workers (ids 0 and 1) are still registered and the pool is running. -/
def drainedPool2 : ThreadPool2.ThreadPool :=
  { ThreadPool2.ThreadPool.construct PoolMode.MODE_FIXED 2 1024 2 with
    threadMap_ := [0, 1]
    currentThreadNum_ := 2
    idleThreadNum_ := 2
    isRunning_ := true }

/-- A 1.0 single-worker view with one queued task (id 0) on a running
fixed pool. -/
def workerAtTask1 : ThreadPool1.WState :=
  { pool :=
      { ThreadPool1.ThreadPool.construct 1 1024 4 PoolMode.MODE_FIXED with
        threadMap_ := [0]
        curThreadNum_ := 1
        idleThreadNum_ := 1
        taskQue_ := [0]
        taskNum_ := 1
        isPoolRunning_ := true }
    executed := [] }

/-- A 2.0 single-worker view with one queued task (id 0) on a running
fixed pool. -/
def workerAtTask2 : ThreadPool2.WState :=
  { pool :=
      { ThreadPool2.ThreadPool.construct PoolMode.MODE_FIXED 1 1024 2 with
        threadMap_ := [0]
        currentThreadNum_ := 1
        idleThreadNum_ := 1
        taskQue_ := [0]
        taskSize_ := 1
        isRunning_ := true }
    executed := []
    futures := [] }

/-- A task body that raises a fault. -/
def faultingBody : Nat → Except Fault ThreadPool1.Any :=
  fun _ => Except.error ⟨"task fault"⟩

/-- C1: the claim states that read() on a valid handle blocks until
filled and then yields the posted value, and that read() on an
invalid handle returns an empty default immediately.  The code of
Result::get (ThreadPool1.0/ThreadPool.cpp lines 21-29) tests
isValid_ the wrong way round: here a valid, already filled handle
(value 42 posted, semaphore at 1) returns the empty Any immediately,
and an invalid handle (as built by a rejected submission,
Result(sp, false)) blocks in sem_.wait() with nobody ever posting. -/
theorem c1_result_get_inverted :
    ThreadPool1.Result.get
        { any_ := ThreadPool1.Any.int 42, semCount := 1, isValid_ := true } =
      ThreadPool1.GetOutcome.ret (ThreadPool1.Any.str "") ∧
    ThreadPool1.Result.get (ThreadPool1.Result.construct false) =
      ThreadPool1.GetOutcome.blocked :=
  ⟨rfl, rfl⟩

/-- C2: the claim states that the pool destructor returns only after
the live-worker registry is empty.  The 1.0 destructor indeed waits
on threadMap_.size() == 0 and keeps waiting here, but the 2.0
destructor (ThreaadPool2.0/ThreadPool.hpp lines 84-85) waits on
taskQue_.size() == 0: on a drained pool that still has two registered
workers, its wait predicate is already true, so the destructor can
return while the registry is non-empty — contradicting both the
claim and the comment above the code. -/
theorem c2_dtor_waits_on_queue_not_registry :
    (ThreadPool2.ThreadPool.dtorBegin drainedPool2).isRunning_ = false ∧
    ThreadPool2.ThreadPool.dtorWaitPred (ThreadPool2.ThreadPool.dtorBegin drainedPool2) = true ∧
    (ThreadPool2.ThreadPool.dtorBegin drainedPool2).threadMap_ = [0, 1] ∧
    (ThreadPool1.ThreadPool.dtorBegin drainedPool1).isPoolRunning_ = false ∧
    ThreadPool1.ThreadPool.dtorWaitPred (ThreadPool1.ThreadPool.dtorBegin drainedPool1) = false :=
  ⟨rfl, rfl, rfl, rfl, rfl⟩

/-- C3 counterexample: the claim states that a fault raised by an
executing task never escapes the consume loop.  In version 1.0 a
worker standing at a queued task whose body faults propagates the
fault out of threadFunc (Task::exec, ThreadPool.cpp lines 38-44, has
no handler around run()). -/
theorem c3_fault_escapes_loop_counterexample :
    ThreadPool1.threadFuncIter 0 false 0 faultingBody workerAtTask1 =
      Except.error ⟨"task fault"⟩ :=
  rfl

/-- C3 amended: in version 2.0 a fault raised by the computation is
stored by the packaged task in the shared state of the future as an
error state, the invocation returns normally and the consume loop
continues with the worker still registered; in version 1.0
Task::exec runs the body with no handler, so the fault propagates
out of exec into the consume loop. -/
theorem c3_fault_capture_amended :
    (∀ e : Fault,
      ThreadPool2.packagedTaskRun (Except.error e) = ThreadPool2.FutState.fault e) ∧
    (∀ (tid : Nat) (timedOut : Bool) (dur : Int) (comp : Nat → Except Fault Int)
        (s : ThreadPool2.WState) (t : Nat) (ts : List Nat),
      s.pool.taskQue_ = t :: ts →
      ∃ s', ThreadPool2.threadFuncIter tid timedOut dur comp s =
              ThreadPool2.IterOut.looped s' ∧
        s'.futures = s.futures ++ [(t, ThreadPool2.packagedTaskRun (comp t))] ∧
        s'.pool.threadMap_ = s.pool.threadMap_) ∧
    (∀ (r : ThreadPool1.Result) (e : Fault),
      ThreadPool1.Task.exec (some r) (Except.error e) = Except.error e) := by
  refine ⟨fun e => rfl, ?_, fun r e => rfl⟩
  intro tid timedOut dur comp s t ts hq
  rcases s with ⟨⟨tm, its, mts, cur, idl, q, tsz, tmx, md, run⟩, ex, fut⟩
  dsimp only at hq
  subst hq
  exact ⟨_, rfl, rfl, rfl⟩

/-- C3 witness: the amended fault-capture statement applied at a 2.0
worker standing at task 0 whose computation faults. -/
theorem c3_fault_capture_amended_witness :
    ∃ s', ThreadPool2.threadFuncIter 0 false 0
            (fun _ => Except.error ⟨"task fault"⟩) workerAtTask2 =
            ThreadPool2.IterOut.looped s' ∧
      s'.futures = workerAtTask2.futures ++
        [(0, ThreadPool2.packagedTaskRun (Except.error ⟨"task fault"⟩))] ∧
      s'.pool.threadMap_ = workerAtTask2.pool.threadMap_ :=
  c3_fault_capture_amended.2.1 0 false 0
    (fun _ => Except.error ⟨"task fault"⟩) workerAtTask2 0 [] rfl

/-- C4 counterexample: the claim states that construction validates
0 < initialCount ≤ maxCount and 0 < queueCapacity and rejects an
invalid configuration.  Both constructors accept every configuration:
constructing the 2.0 pool with initialCount = 0 and the 1.0 pool with
queueCapacity = 0 completes normally, storing the invalid values. -/
theorem c4_no_validation_counterexample :
    ¬ specValidConfig 0 1024 2 ∧
    (ThreadPool2.ThreadPool.construct PoolMode.MODE_FIXED 0 1024 2).initThreadSize_ = 0 ∧
    ¬ specValidConfig 4 1024 0 ∧
    (ThreadPool1.ThreadPool.construct 4 1024 0 PoolMode.MODE_FIXED).taskQueMaxThreshHold_ = 0 := by
  refine ⟨by decide, rfl, by decide, rfl⟩

/-- C4 amended: both constructors perform no validation at all; they
store mode, initialCount, maxCount and queueCapacity verbatim for
arbitrary integer arguments (zeroing the dynamic counters and not
starting any worker), so every configuration — including
initialCount ≤ 0, initialCount > maxCount or queueCapacity ≤ 0 — is
accepted at construction time. -/
theorem c4_construct_stores_unvalidated :
    ∀ (i m q : Int) (mode : PoolMode),
      ((ThreadPool2.ThreadPool.construct mode i m q).initThreadSize_ = i ∧
       (ThreadPool2.ThreadPool.construct mode i m q).maxThreadSize_ = m ∧
       (ThreadPool2.ThreadPool.construct mode i m q).taskMaxSize_ = q ∧
       (ThreadPool2.ThreadPool.construct mode i m q).poolmode_ = mode ∧
       (ThreadPool2.ThreadPool.construct mode i m q).currentThreadNum_ = 0 ∧
       (ThreadPool2.ThreadPool.construct mode i m q).threadMap_ = [] ∧
       (ThreadPool2.ThreadPool.construct mode i m q).isRunning_ = false) ∧
      ((ThreadPool1.ThreadPool.construct i m q mode).initThreadSize_ = i ∧
       (ThreadPool1.ThreadPool.construct i m q mode).threadSizeThreshHold_ = m ∧
       (ThreadPool1.ThreadPool.construct i m q mode).taskQueMaxThreshHold_ = q ∧
       (ThreadPool1.ThreadPool.construct i m q mode).poolMode_ = mode ∧
       (ThreadPool1.ThreadPool.construct i m q mode).curThreadNum_ = 0 ∧
       (ThreadPool1.ThreadPool.construct i m q mode).threadMap_ = []) :=
  fun i m q mode =>
    ⟨⟨rfl, rfl, rfl, rfl, rfl, rfl, rfl⟩, rfl, rfl, rfl, rfl, rfl, rfl⟩

/-- C9: the claim states that for an accepted submission the
round-trip read(submit(pool, f, x)) yields f(x).  In version 1.0 the
worker half works: Task::exec posts f(x) = 41 + 1 = 42 into the valid
Result via setVal.  But Result::get then takes the inverted
isValid_ branch and returns the empty Any built from "" instead of
the posted 42, so the round trip yields the default value, not f(x). -/
theorem c9_round_trip_yields_default :
    ThreadPool1.Task.exec (some (ThreadPool1.Result.construct true))
        (Except.ok (ThreadPool1.Any.int (41 + 1))) =
      Except.ok (some ((ThreadPool1.Result.construct true).setVal
        (ThreadPool1.Any.int 42))) ∧
    ((ThreadPool1.Result.construct true).setVal (ThreadPool1.Any.int 42)).get =
      ThreadPool1.GetOutcome.ret (ThreadPool1.Any.str "") ∧
    ThreadPool1.GetOutcome.ret (ThreadPool1.Any.str "") ≠
      ThreadPool1.GetOutcome.ret (ThreadPool1.Any.int 42) := by
  refine ⟨rfl, rfl, by decide⟩

/-!
Helper lemmas about the consume loops (shared by the theorems for
claims C5 and C8).
-/

/-- One fuel step of the 2.0 loop at a non-empty queue: pop the head,
run the wrapped packaged task, record its future state, continue. -/
theorem runWorker2_step_exec (tid : Nat) (touts : Nat → Bool) (durs : Nat → Int)
    (comp : Nat → Except Fault Int) (n : Nat) (tm : List Nat)
    (its mts cur idl tsz tmx : Int) (md : PoolMode) (rn : Bool)
    (t : Nat) (ts ex : List Nat) (fut : List (Nat × ThreadPool2.FutState)) :
    ThreadPool2.runWorker tid touts durs comp (n + 1)
        ⟨⟨tm, its, mts, cur, idl, t :: ts, tsz, tmx, md, rn⟩, ex, fut⟩ =
      ThreadPool2.runWorker tid touts durs comp n
        ⟨⟨tm, its, mts, cur, idl, ts, tsz - 1, tmx, md, rn⟩, ex ++ [t],
          fut ++ [(t, ThreadPool2.packagedTaskRun (comp t))]⟩ :=
  rfl

/-- One fuel step of the 2.0 loop at an empty queue with the pool no
longer running: the clean-shutdown exit, deregistering the worker. -/
theorem runWorker2_step_exit (tid : Nat) (touts : Nat → Bool) (durs : Nat → Int)
    (comp : Nat → Except Fault Int) (n : Nat) (tm : List Nat)
    (its mts cur idl tsz tmx : Int) (md : PoolMode)
    (ex : List Nat) (fut : List (Nat × ThreadPool2.FutState)) :
    ThreadPool2.runWorker tid touts durs comp (n + 1)
        ⟨⟨tm, its, mts, cur, idl, [], tsz, tmx, md, false⟩, ex, fut⟩ =
      ThreadPool2.RunOut.exitedShutdown
        ⟨⟨tm.erase tid, its, mts, cur, idl, [], tsz, tmx, md, false⟩, ex, fut⟩ :=
  rfl

/-- With the running flag false, a 2.0 worker drains the whole queue
in order and then leaves through the clean-shutdown exit,
deregistering itself. -/
theorem runWorker2_drain (tid : Nat) (touts : Nat → Bool) (durs : Nat → Int)
    (comp : Nat → Except Fault Int) :
    ∀ (q tm : List Nat) (its mts cur idl tsz tmx : Int) (md : PoolMode)
      (ex : List Nat) (fut : List (Nat × ThreadPool2.FutState)),
      ∃ s', ThreadPool2.runWorker tid touts durs comp (q.length + 1)
          ⟨⟨tm, its, mts, cur, idl, q, tsz, tmx, md, false⟩, ex, fut⟩ =
          ThreadPool2.RunOut.exitedShutdown s' ∧
        s'.executed = ex ++ q ∧ s'.pool.taskQue_ = [] ∧
        s'.pool.threadMap_ = tm.erase tid := by
  intro q
  induction q with
  | nil =>
    intro tm its mts cur idl tsz tmx md ex fut
    exact ⟨_, runWorker2_step_exit tid touts durs comp 0 tm its mts cur idl
      tsz tmx md ex fut, by simp, rfl, rfl⟩
  | cons t ts ih =>
    intro tm its mts cur idl tsz tmx md ex fut
    obtain ⟨s', h1, h2, h3, h4⟩ := ih tm its mts cur idl (tsz - 1) tmx md
      (ex ++ [t]) (fut ++ [(t, ThreadPool2.packagedTaskRun (comp t))])
    refine ⟨s', ?_, ?_, h3, h4⟩
    · calc ThreadPool2.runWorker tid touts durs comp ((t :: ts).length + 1)
            ⟨⟨tm, its, mts, cur, idl, t :: ts, tsz, tmx, md, false⟩, ex, fut⟩ =
          ThreadPool2.runWorker tid touts durs comp (ts.length + 1)
            ⟨⟨tm, its, mts, cur, idl, ts, tsz - 1, tmx, md, false⟩, ex ++ [t],
              fut ++ [(t, ThreadPool2.packagedTaskRun (comp t))]⟩ :=
            runWorker2_step_exec tid touts durs comp (ts.length + 1) tm its mts
              cur idl tsz tmx md false t ts ex fut
        _ = ThreadPool2.RunOut.exitedShutdown s' := h1
    · simpa using h2

/-- Unfolding of one fuel step of the 1.0 loop. -/
theorem runWorker1_succ (tid : Nat) (touts : Nat → Bool) (durs : Nat → Int)
    (runOf : Nat → Except Fault ThreadPool1.Any) (n : Nat) (s : ThreadPool1.WState) :
    ThreadPool1.runWorker tid touts durs runOf (n + 1) s =
      match ThreadPool1.threadFuncIter tid (touts n) (durs n) runOf s with
      | Except.error e => Except.error e
      | Except.ok (ThreadPool1.IterOut.exitShutdown s') =>
          Except.ok (ThreadPool1.RunOut.exitedShutdown s')
      | Except.ok (ThreadPool1.IterOut.exitCull s') =>
          Except.ok (ThreadPool1.RunOut.exitedCull s')
      | Except.ok (ThreadPool1.IterOut.looped s') =>
          ThreadPool1.runWorker tid touts durs runOf n s' :=
  rfl

/-- One pass of the 1.0 loop at a non-empty queue whose head task
body returns normally: pop the head, execute it, continue. -/
theorem iter1_exec (tid : Nat) (timedOut : Bool) (dur : Int)
    (runOf : Nat → Except Fault ThreadPool1.Any) (tm : List Nat)
    (its mts cur idl tsz tmx : Int) (md : PoolMode) (rn : Bool)
    (t : Nat) (ts ex : List Nat) (a : ThreadPool1.Any)
    (ha : runOf t = Except.ok a) :
    ThreadPool1.threadFuncIter tid timedOut dur runOf
        ⟨⟨tm, its, mts, cur, idl, t :: ts, tsz, tmx, md, rn⟩, ex⟩ =
      Except.ok (ThreadPool1.IterOut.looped
        ⟨⟨tm, its, mts, cur, idl, ts, tsz - 1, tmx, md, rn⟩, ex ++ [t]⟩) := by
  simp [ThreadPool1.threadFuncIter, ha, ThreadPool1.Task.exec]

/-- One fuel step of the 1.0 loop at a non-empty queue whose head
task body returns normally. -/
theorem runWorker1_step_exec (tid : Nat) (touts : Nat → Bool) (durs : Nat → Int)
    (runOf : Nat → Except Fault ThreadPool1.Any) (n : Nat) (tm : List Nat)
    (its mts cur idl tsz tmx : Int) (md : PoolMode) (rn : Bool)
    (t : Nat) (ts ex : List Nat) (a : ThreadPool1.Any)
    (ha : runOf t = Except.ok a) :
    ThreadPool1.runWorker tid touts durs runOf (n + 1)
        ⟨⟨tm, its, mts, cur, idl, t :: ts, tsz, tmx, md, rn⟩, ex⟩ =
      ThreadPool1.runWorker tid touts durs runOf n
        ⟨⟨tm, its, mts, cur, idl, ts, tsz - 1, tmx, md, rn⟩, ex ++ [t]⟩ := by
  rw [runWorker1_succ,
    iter1_exec tid (touts n) (durs n) runOf tm its mts cur idl tsz tmx md rn t ts ex a ha]

/-- With the running flag false and no task body faulting, a 1.0
worker drains the whole queue in order and then leaves through the
clean-shutdown exit, deregistering itself. -/
theorem runWorker1_drain (tid : Nat) (touts : Nat → Bool) (durs : Nat → Int)
    (runOf : Nat → Except Fault ThreadPool1.Any) :
    ∀ (q tm : List Nat) (its mts cur idl tsz tmx : Int) (md : PoolMode)
      (ex : List Nat),
      (∀ t ∈ q, ∃ a, runOf t = Except.ok a) →
      ∃ s', ThreadPool1.runWorker tid touts durs runOf (q.length + 1)
          ⟨⟨tm, its, mts, cur, idl, q, tsz, tmx, md, false⟩, ex⟩ =
          Except.ok (ThreadPool1.RunOut.exitedShutdown s') ∧
        s'.executed = ex ++ q ∧ s'.pool.taskQue_ = [] ∧
        s'.pool.threadMap_ = tm.erase tid := by
  intro q
  induction q with
  | nil =>
    intro tm its mts cur idl tsz tmx md ex hok
    exact ⟨_, rfl, by simp, rfl, rfl⟩
  | cons t ts ih =>
    intro tm its mts cur idl tsz tmx md ex hok
    obtain ⟨a, ha⟩ := hok t (by simp)
    obtain ⟨s', h1, h2, h3, h4⟩ := ih tm its mts cur idl (tsz - 1) tmx md
      (ex ++ [t]) (fun u hu => hok u (by simp [hu]))
    refine ⟨s', ?_, by simpa using h2, h3, h4⟩
    calc ThreadPool1.runWorker tid touts durs runOf ((t :: ts).length + 1)
          ⟨⟨tm, its, mts, cur, idl, t :: ts, tsz, tmx, md, false⟩, ex⟩ =
        ThreadPool1.runWorker tid touts durs runOf (ts.length + 1)
          ⟨⟨tm, its, mts, cur, idl, ts, tsz - 1, tmx, md, false⟩, ex ++ [t]⟩ :=
          runWorker1_step_exec tid touts durs runOf (ts.length + 1) tm its mts
            cur idl tsz tmx md false t ts ex a ha
      _ = Except.ok (ThreadPool1.RunOut.exitedShutdown s') := h1

/-- A 2.0 worker whose fuel equals the queue length executes exactly
the queued tasks, in order, and keeps looping without deregistering. -/
theorem runWorker2_fifo (tid : Nat) (touts : Nat → Bool) (durs : Nat → Int)
    (comp : Nat → Except Fault Int) :
    ∀ (q tm : List Nat) (its mts cur idl tsz tmx : Int) (md : PoolMode)
      (rn : Bool) (ex : List Nat) (fut : List (Nat × ThreadPool2.FutState)),
      ∃ s', ThreadPool2.runWorker tid touts durs comp q.length
          ⟨⟨tm, its, mts, cur, idl, q, tsz, tmx, md, rn⟩, ex, fut⟩ =
          ThreadPool2.RunOut.stillLooping s' ∧
        s'.executed = ex ++ q ∧ s'.pool.taskQue_ = [] ∧
        s'.pool.threadMap_ = tm := by
  intro q
  induction q with
  | nil =>
    intro tm its mts cur idl tsz tmx md rn ex fut
    exact ⟨_, rfl, by simp, rfl, rfl⟩
  | cons t ts ih =>
    intro tm its mts cur idl tsz tmx md rn ex fut
    obtain ⟨s', h1, h2, h3, h4⟩ := ih tm its mts cur idl (tsz - 1) tmx md rn
      (ex ++ [t]) (fut ++ [(t, ThreadPool2.packagedTaskRun (comp t))])
    refine ⟨s', ?_, by simpa using h2, h3, h4⟩
    calc ThreadPool2.runWorker tid touts durs comp (t :: ts).length
          ⟨⟨tm, its, mts, cur, idl, t :: ts, tsz, tmx, md, rn⟩, ex, fut⟩ =
        ThreadPool2.runWorker tid touts durs comp ts.length
          ⟨⟨tm, its, mts, cur, idl, ts, tsz - 1, tmx, md, rn⟩, ex ++ [t],
            fut ++ [(t, ThreadPool2.packagedTaskRun (comp t))]⟩ :=
          runWorker2_step_exec tid touts durs comp ts.length tm its mts cur idl
            tsz tmx md rn t ts ex fut
      _ = ThreadPool2.RunOut.stillLooping s' := h1

/-- A 1.0 worker whose fuel equals the queue length executes exactly
the queued tasks, in order, and keeps looping without deregistering,
provided no task body faults. -/
theorem runWorker1_fifo (tid : Nat) (touts : Nat → Bool) (durs : Nat → Int)
    (runOf : Nat → Except Fault ThreadPool1.Any) :
    ∀ (q tm : List Nat) (its mts cur idl tsz tmx : Int) (md : PoolMode)
      (rn : Bool) (ex : List Nat),
      (∀ t ∈ q, ∃ a, runOf t = Except.ok a) →
      ∃ s', ThreadPool1.runWorker tid touts durs runOf q.length
          ⟨⟨tm, its, mts, cur, idl, q, tsz, tmx, md, rn⟩, ex⟩ =
          Except.ok (ThreadPool1.RunOut.stillLooping s') ∧
        s'.executed = ex ++ q ∧ s'.pool.taskQue_ = [] ∧
        s'.pool.threadMap_ = tm := by
  intro q
  induction q with
  | nil =>
    intro tm its mts cur idl tsz tmx md rn ex hok
    exact ⟨_, rfl, by simp, rfl, rfl⟩
  | cons t ts ih =>
    intro tm its mts cur idl tsz tmx md rn ex hok
    obtain ⟨a, ha⟩ := hok t (by simp)
    obtain ⟨s', h1, h2, h3, h4⟩ := ih tm its mts cur idl (tsz - 1) tmx md rn
      (ex ++ [t]) (fun u hu => hok u (by simp [hu]))
    refine ⟨s', ?_, by simpa using h2, h3, h4⟩
    calc ThreadPool1.runWorker tid touts durs runOf (t :: ts).length
          ⟨⟨tm, its, mts, cur, idl, t :: ts, tsz, tmx, md, rn⟩, ex⟩ =
        ThreadPool1.runWorker tid touts durs runOf ts.length
          ⟨⟨tm, its, mts, cur, idl, ts, tsz - 1, tmx, md, rn⟩, ex ++ [t]⟩ :=
          runWorker1_step_exec tid touts durs runOf ts.length tm its mts cur idl
            tsz tmx md rn t ts ex a ha
      _ = Except.ok (ThreadPool1.RunOut.stillLooping s') := h1

/-- C5: in both versions, the clean-shutdown exit of the consume loop
(erase own registry entry and return, taken when the running flag is
down) is reachable only from a state whose task queue is empty; and
once shutdown has put the running flag down, a worker first dequeues
and executes every envelope still in the queue, in order, before it
takes that exit and deregisters itself — so no accepted task is
silently lost (in 1.0 provided no task body faults, faults being the
separate concern of C3). -/
theorem c5_clean_shutdown_drains_queue :
    (∀ (tid : Nat) (timedOut : Bool) (dur : Int) (comp : Nat → Except Fault Int)
        (s s' : ThreadPool2.WState),
      ThreadPool2.threadFuncIter tid timedOut dur comp s =
          ThreadPool2.IterOut.exitShutdown s' →
      s.pool.taskQue_ = []) ∧
    (∀ (tid : Nat) (timedOut : Bool) (dur : Int)
        (runOf : Nat → Except Fault ThreadPool1.Any)
        (s s' : ThreadPool1.WState),
      ThreadPool1.threadFuncIter tid timedOut dur runOf s =
          Except.ok (ThreadPool1.IterOut.exitShutdown s') →
      s.pool.taskQue_ = []) ∧
    (∀ (tid : Nat) (touts : Nat → Bool) (durs : Nat → Int)
        (comp : Nat → Except Fault Int) (s : ThreadPool2.WState),
      s.pool.isRunning_ = false →
      ∃ s', ThreadPool2.runWorker tid touts durs comp
          (s.pool.taskQue_.length + 1) s = ThreadPool2.RunOut.exitedShutdown s' ∧
        s'.executed = s.executed ++ s.pool.taskQue_ ∧
        s'.pool.taskQue_ = [] ∧
        s'.pool.threadMap_ = s.pool.threadMap_.erase tid) ∧
    (∀ (tid : Nat) (touts : Nat → Bool) (durs : Nat → Int)
        (runOf : Nat → Except Fault ThreadPool1.Any) (s : ThreadPool1.WState),
      s.pool.isPoolRunning_ = false →
      (∀ t ∈ s.pool.taskQue_, ∃ a, runOf t = Except.ok a) →
      ∃ s', ThreadPool1.runWorker tid touts durs runOf
          (s.pool.taskQue_.length + 1) s =
          Except.ok (ThreadPool1.RunOut.exitedShutdown s') ∧
        s'.executed = s.executed ++ s.pool.taskQue_ ∧
        s'.pool.taskQue_ = [] ∧
        s'.pool.threadMap_ = s.pool.threadMap_.erase tid) := by
  refine ⟨?_, ?_, ?_, ?_⟩
  · intro tid timedOut dur comp s s' h
    rcases s with ⟨⟨tm, its, mts, cur, idl, q, tsz, tmx, md, rn⟩, ex, fut⟩
    cases q with
    | nil => rfl
    | cons t ts => simp [ThreadPool2.threadFuncIter] at h
  · intro tid timedOut dur runOf s s' h
    rcases s with ⟨⟨tm, its, mts, cur, idl, q, tsz, tmx, md, rn⟩, ex⟩
    cases q with
    | nil => rfl
    | cons t ts =>
      cases hr : runOf t with
      | ok a =>
        rw [iter1_exec tid timedOut dur runOf tm its mts cur idl tsz tmx md rn
          t ts ex a hr] at h
        cases h
      | error e => simp [ThreadPool1.threadFuncIter, hr, ThreadPool1.Task.exec] at h
  · intro tid touts durs comp s hrun
    rcases s with ⟨⟨tm, its, mts, cur, idl, q, tsz, tmx, md, rn⟩, ex, fut⟩
    cases hrun
    exact runWorker2_drain tid touts durs comp q tm its mts cur idl tsz tmx md ex fut
  · intro tid touts durs runOf s hrun hok
    rcases s with ⟨⟨tm, its, mts, cur, idl, q, tsz, tmx, md, rn⟩, ex⟩
    cases hrun
    exact runWorker1_drain tid touts durs runOf q tm its mts cur idl tsz tmx md ex hok

/-- Task bodies used by the concrete witnesses: task id n computes
the value n. -/
def okBody2 : Nat → Except Fault Int :=
  fun n => Except.ok (n : Int)

/-- Task bodies used by the concrete witnesses: task id n computes
the Any-boxed value n. -/
def okBody1 : Nat → Except Fault ThreadPool1.Any :=
  fun n => Except.ok (ThreadPool1.Any.int n)

/-- A 2.0 worker view after shutdown flipped the running flag, with
tasks 3 and 7 still queued. -/
def shutdownWorker2 : ThreadPool2.WState :=
  { pool :=
      { ThreadPool2.ThreadPool.dtorBegin drainedPool2 with
        taskQue_ := [3, 7]
        taskSize_ := 2 }
    executed := []
    futures := [] }

/-- A 1.0 worker view after shutdown flipped the running flag, with
tasks 3 and 7 still queued. -/
def shutdownWorker1 : ThreadPool1.WState :=
  { pool :=
      { ThreadPool1.ThreadPool.dtorBegin drainedPool1 with
        taskQue_ := [3, 7]
        taskNum_ := 2 }
    executed := [] }

/-- C5 witness: the drain statement applied at concrete stopped pools
with two queued tasks, and the exit-only-on-empty-queue statement
applied at a concrete clean-shutdown exit. -/
theorem c5_clean_shutdown_drains_queue_witness :
    (⟨{ drainedPool2.dtorBegin with threadMap_ := [1] }, [], []⟩ :
        ThreadPool2.WState).pool.taskQue_ = [] ∧
    (∃ s', ThreadPool2.runWorker 0 (fun _ => false) (fun _ => 0) okBody2
        (shutdownWorker2.pool.taskQue_.length + 1) shutdownWorker2 =
        ThreadPool2.RunOut.exitedShutdown s' ∧
      s'.executed = shutdownWorker2.executed ++ shutdownWorker2.pool.taskQue_ ∧
      s'.pool.taskQue_ = [] ∧
      s'.pool.threadMap_ = shutdownWorker2.pool.threadMap_.erase 0) ∧
    (∃ s', ThreadPool1.runWorker 0 (fun _ => false) (fun _ => 0) okBody1
        (shutdownWorker1.pool.taskQue_.length + 1) shutdownWorker1 =
        Except.ok (ThreadPool1.RunOut.exitedShutdown s') ∧
      s'.executed = shutdownWorker1.executed ++ shutdownWorker1.pool.taskQue_ ∧
      s'.pool.taskQue_ = [] ∧
      s'.pool.threadMap_ = shutdownWorker1.pool.threadMap_.erase 0) := by
  refine ⟨?_, ?_, ?_⟩
  · exact c5_clean_shutdown_drains_queue.1 0 false 0 okBody2
      ⟨drainedPool2.dtorBegin, [], []⟩
      ⟨{ drainedPool2.dtorBegin with threadMap_ := [1] }, [], []⟩ rfl
  · exact c5_clean_shutdown_drains_queue.2.2.1 0 (fun _ => false) (fun _ => 0)
      okBody2 shutdownWorker2 rfl
  · exact c5_clean_shutdown_drains_queue.2.2.2 0 (fun _ => false) (fun _ => 0)
      okBody1 shutdownWorker1 rfl (fun t ht => ⟨ThreadPool1.Any.int t, rfl⟩)

/-- C8: FIFO. An accepted submission appends its envelope at the tail
of the task queue, and a single worker dequeues from the head
(taskQue_.front / pop), so running one worker over the queue executes
exactly the queued tasks in submission order — no priority and no
reordering (in 1.0 provided no task body faults).  This is the
single-producer, single-worker scenario of the claim. -/
theorem c8_fifo_completion_order :
    (∀ (p : ThreadPool2.ThreadPool) (t : Nat) (g : Nat),
      (p.taskQue_.length : Int) < p.taskMaxSize_ →
      (p.submitTask t g).pool.taskQue_ = p.taskQue_ ++ [t]) ∧
    (∀ (p : ThreadPool1.ThreadPool) (t : Nat) (g : Nat),
      (p.taskQue_.length : Int) < p.taskQueMaxThreshHold_ →
      (p.submitTask t g).pool.taskQue_ = p.taskQue_ ++ [t]) ∧
    (∀ (tid : Nat) (touts : Nat → Bool) (durs : Nat → Int)
        (comp : Nat → Except Fault Int) (s : ThreadPool2.WState),
      ∃ s', ThreadPool2.runWorker tid touts durs comp
          s.pool.taskQue_.length s = ThreadPool2.RunOut.stillLooping s' ∧
        s'.executed = s.executed ++ s.pool.taskQue_ ∧
        s'.pool.taskQue_ = [] ∧
        s'.pool.threadMap_ = s.pool.threadMap_) ∧
    (∀ (tid : Nat) (touts : Nat → Bool) (durs : Nat → Int)
        (runOf : Nat → Except Fault ThreadPool1.Any) (s : ThreadPool1.WState),
      (∀ t ∈ s.pool.taskQue_, ∃ a, runOf t = Except.ok a) →
      ∃ s', ThreadPool1.runWorker tid touts durs runOf
          s.pool.taskQue_.length s =
          Except.ok (ThreadPool1.RunOut.stillLooping s') ∧
        s'.executed = s.executed ++ s.pool.taskQue_ ∧
        s'.pool.taskQue_ = [] ∧
        s'.pool.threadMap_ = s.pool.threadMap_) := by
  refine ⟨?_, ?_, ?_, ?_⟩
  · intro p t g hroom
    rcases p with ⟨tm, its, mts, cur, idl, q, tsz, tmx, md, rn⟩
    simp only [ThreadPool2.ThreadPool.submitTask]
    rw [if_pos hroom]
    by_cases hsp : md = PoolMode.MODE_CACHED ∧
        ((q ++ [t]).length : Int) > idl ∧ cur < mts
    · rw [if_pos hsp]
    · rw [if_neg hsp]
  · intro p t g hroom
    rcases p with ⟨tm, its, mts, cur, idl, q, tsz, tmx, md, rn⟩
    simp only [ThreadPool1.ThreadPool.submitTask]
    rw [if_pos hroom]
    by_cases hsp : md = PoolMode.MODE_CACHED ∧ cur < mts ∧ tsz + 1 > idl
    · rw [if_pos hsp]
    · rw [if_neg hsp]
  · intro tid touts durs comp s
    rcases s with ⟨⟨tm, its, mts, cur, idl, q, tsz, tmx, md, rn⟩, ex, fut⟩
    exact runWorker2_fifo tid touts durs comp q tm its mts cur idl tsz tmx md rn ex fut
  · intro tid touts durs runOf s hok
    rcases s with ⟨⟨tm, its, mts, cur, idl, q, tsz, tmx, md, rn⟩, ex⟩
    exact runWorker1_fifo tid touts durs runOf q tm its mts cur idl tsz tmx md rn ex hok

/-- A single-worker 2.0 fixed pool, running, with tasks 1, 2 and 3
queued in submission order. -/
def fifoWorker2 : ThreadPool2.WState :=
  { pool :=
      { ThreadPool2.ThreadPool.construct PoolMode.MODE_FIXED 1 1024 4 with
        threadMap_ := [0]
        currentThreadNum_ := 1
        idleThreadNum_ := 1
        taskQue_ := [1, 2, 3]
        taskSize_ := 3
        isRunning_ := true }
    executed := []
    futures := [] }

/-- A single-worker 1.0 fixed pool, running, with tasks 1, 2 and 3
queued in submission order. -/
def fifoWorker1 : ThreadPool1.WState :=
  { pool :=
      { ThreadPool1.ThreadPool.construct 1 1024 4 PoolMode.MODE_FIXED with
        threadMap_ := [0]
        curThreadNum_ := 1
        idleThreadNum_ := 1
        taskQue_ := [1, 2, 3]
        taskNum_ := 3
        isPoolRunning_ := true }
    executed := [] }

/-- C8 witness: the FIFO statement applied at concrete single-worker
fixed pools holding tasks 1, 2, 3, and the enqueue-appends statement
applied at a concrete pool with room. -/
theorem c8_fifo_completion_order_witness :
    (fifoWorker2.pool.submitTask 4 1).pool.taskQue_ =
      fifoWorker2.pool.taskQue_ ++ [4] ∧
    (fifoWorker1.pool.submitTask 4 1).pool.taskQue_ =
      fifoWorker1.pool.taskQue_ ++ [4] ∧
    (∃ s', ThreadPool2.runWorker 0 (fun _ => false) (fun _ => 0) okBody2
        fifoWorker2.pool.taskQue_.length fifoWorker2 =
        ThreadPool2.RunOut.stillLooping s' ∧
      s'.executed = fifoWorker2.executed ++ fifoWorker2.pool.taskQue_ ∧
      s'.pool.taskQue_ = [] ∧
      s'.pool.threadMap_ = fifoWorker2.pool.threadMap_) ∧
    (∃ s', ThreadPool1.runWorker 0 (fun _ => false) (fun _ => 0) okBody1
        fifoWorker1.pool.taskQue_.length fifoWorker1 =
        Except.ok (ThreadPool1.RunOut.stillLooping s') ∧
      s'.executed = fifoWorker1.executed ++ fifoWorker1.pool.taskQue_ ∧
      s'.pool.taskQue_ = [] ∧
      s'.pool.threadMap_ = fifoWorker1.pool.threadMap_) := by
  refine ⟨?_, ?_, ?_, ?_⟩
  · exact c8_fifo_completion_order.1 fifoWorker2.pool 4 1 (by decide)
  · exact c8_fifo_completion_order.2.1 fifoWorker1.pool 4 1 (by decide)
  · exact c8_fifo_completion_order.2.2.1 0 (fun _ => false) (fun _ => 0)
      okBody2 fifoWorker2
  · exact c8_fifo_completion_order.2.2.2 0 (fun _ => false) (fun _ => 0)
      okBody1 fifoWorker1 (fun t ht => ⟨ThreadPool1.Any.int t, rfl⟩)

/-- C6: in cached (elastic) mode, an accepted submission spawns a new
worker exactly when the queue length (just after the enqueue) exceeds
idleThreadNum_ and currentThreadNum_ is below the maximum; otherwise
the spawn is skipped, and a rejected submission changes nothing.
Consequently a submission never drives the current worker count above
the maximum: if currentThreadNum_ ≤ max before the call, the same
holds after it.  Stated for the 2.0 fields, and for the 1.0 fields
under the invariant that the task counter taskNum_ equals the queue
length (taskNum_ is the value the 1.0 spawn check reads in place of
taskQue_.size()). -/
theorem c6_elastic_spawn_bound :
    ∀ (p2 : ThreadPool2.ThreadPool) (p1 : ThreadPool1.ThreadPool) (t g : Nat),
      (((p2.submitTask t g).pool.currentThreadNum_ = p2.currentThreadNum_ + 1 ↔
         ((p2.taskQue_.length : Int) < p2.taskMaxSize_ ∧
          p2.poolmode_ = PoolMode.MODE_CACHED ∧
          (p2.taskQue_.length : Int) + 1 > p2.idleThreadNum_ ∧
          p2.currentThreadNum_ < p2.maxThreadSize_)) ∧
       ((p2.submitTask t g).pool.currentThreadNum_ = p2.currentThreadNum_ + 1 ∨
        (p2.submitTask t g).pool.currentThreadNum_ = p2.currentThreadNum_) ∧
       (p2.currentThreadNum_ ≤ p2.maxThreadSize_ →
        (p2.submitTask t g).pool.currentThreadNum_ ≤ p2.maxThreadSize_)) ∧
      (p1.taskNum_ = (p1.taskQue_.length : Int) →
       (((p1.submitTask t g).pool.curThreadNum_ = p1.curThreadNum_ + 1 ↔
          ((p1.taskQue_.length : Int) < p1.taskQueMaxThreshHold_ ∧
           p1.poolMode_ = PoolMode.MODE_CACHED ∧
           (p1.taskQue_.length : Int) + 1 > p1.idleThreadNum_ ∧
           p1.curThreadNum_ < p1.threadSizeThreshHold_)) ∧
        (p1.curThreadNum_ ≤ p1.threadSizeThreshHold_ →
         (p1.submitTask t g).pool.curThreadNum_ ≤ p1.threadSizeThreshHold_))) := by
  intro p2 p1 t g
  constructor
  · rcases p2 with ⟨tm, its, mts, cur, idl, q, tsz, tmx, md, rn⟩
    simp only [ThreadPool2.ThreadPool.submitTask]
    split_ifs with h1 h2 <;>
      simp_all [List.length_append] <;> omega
  · intro hts
    rcases p1 with ⟨tm, its, mts, cur, idl, q, tsz, tmx, md, rn⟩
    rcases md <;>
      (simp only [ThreadPool1.ThreadPool.submitTask]
       split_ifs with h1 h2 <;>
         simp_all [List.length_append] <;> omega)

/-- A 2.0 cached pool under load: two tasks queued out of capacity 4,
one worker, none idle — the spawn condition holds. -/
def loadedPool2 : ThreadPool2.ThreadPool :=
  { ThreadPool2.ThreadPool.construct PoolMode.MODE_CACHED 1 4 4 with
    threadMap_ := [0]
    currentThreadNum_ := 1
    idleThreadNum_ := 0
    taskQue_ := [1, 2]
    taskSize_ := 2
    isRunning_ := true }

/-- A 1.0 cached pool under load: two tasks queued out of capacity 4,
one worker, none idle — the spawn condition holds. -/
def loadedPool1 : ThreadPool1.ThreadPool :=
  { ThreadPool1.ThreadPool.construct 1 4 4 PoolMode.MODE_CACHED with
    threadMap_ := [0]
    curThreadNum_ := 1
    idleThreadNum_ := 0
    taskQue_ := [1, 2]
    taskNum_ := 2
    isPoolRunning_ := true }

/-- C6 witness: the spawn characterization applied at concrete loaded
cached pools. -/
theorem c6_elastic_spawn_bound_witness :
    (((loadedPool2.submitTask 3 1).pool.currentThreadNum_ =
        loadedPool2.currentThreadNum_ + 1 ↔
       ((loadedPool2.taskQue_.length : Int) < loadedPool2.taskMaxSize_ ∧
        loadedPool2.poolmode_ = PoolMode.MODE_CACHED ∧
        (loadedPool2.taskQue_.length : Int) + 1 > loadedPool2.idleThreadNum_ ∧
        loadedPool2.currentThreadNum_ < loadedPool2.maxThreadSize_)) ∧
     ((loadedPool2.submitTask 3 1).pool.currentThreadNum_ =
        loadedPool2.currentThreadNum_ + 1 ∨
      (loadedPool2.submitTask 3 1).pool.currentThreadNum_ =
        loadedPool2.currentThreadNum_) ∧
     (loadedPool2.currentThreadNum_ ≤ loadedPool2.maxThreadSize_ →
      (loadedPool2.submitTask 3 1).pool.currentThreadNum_ ≤
        loadedPool2.maxThreadSize_)) ∧
    (((loadedPool1.submitTask 3 1).pool.curThreadNum_ =
        loadedPool1.curThreadNum_ + 1 ↔
       ((loadedPool1.taskQue_.length : Int) < loadedPool1.taskQueMaxThreshHold_ ∧
        loadedPool1.poolMode_ = PoolMode.MODE_CACHED ∧
        (loadedPool1.taskQue_.length : Int) + 1 > loadedPool1.idleThreadNum_ ∧
        loadedPool1.curThreadNum_ < loadedPool1.threadSizeThreshHold_)) ∧
     (loadedPool1.curThreadNum_ ≤ loadedPool1.threadSizeThreshHold_ →
      (loadedPool1.submitTask 3 1).pool.curThreadNum_ ≤
        loadedPool1.threadSizeThreshHold_)) :=
  ⟨(c6_elastic_spawn_bound loadedPool2 loadedPool1 3 1).1,
   (c6_elastic_spawn_bound loadedPool2 loadedPool1 3 1).2 rfl⟩

/-- C7: in both versions, the culling exit of the consume loop fires
exactly when the worker stands at an empty queue of a running,
cached-mode pool, the 1-second wait timed out, the measured idle
duration has reached THREAD_MAX_IDLE_TIME (60), and the current
worker count is strictly above initThreadSize_; it then erases the
own registry entry and decrements the current and idle counters, and
the current count stays at or above initThreadSize_ afterwards. -/
theorem c7_idle_cull_characterization :
    (∀ (tid : Nat) (timedOut : Bool) (dur : Int) (comp : Nat → Except Fault Int)
        (s : ThreadPool2.WState),
      ((∃ s', ThreadPool2.threadFuncIter tid timedOut dur comp s =
          ThreadPool2.IterOut.exitCull s') ↔
        (s.pool.taskQue_ = [] ∧ s.pool.isRunning_ = true ∧
         s.pool.poolmode_ = PoolMode.MODE_CACHED ∧ timedOut = true ∧
         dur ≥ ThreadPool2.THREAD_MAX_IDLE_TIME ∧
         s.pool.currentThreadNum_ > s.pool.initThreadSize_)) ∧
      (∀ s', ThreadPool2.threadFuncIter tid timedOut dur comp s =
          ThreadPool2.IterOut.exitCull s' →
        (s'.pool.currentThreadNum_ = s.pool.currentThreadNum_ - 1 ∧
         s'.pool.idleThreadNum_ = s.pool.idleThreadNum_ - 1 ∧
         s'.pool.threadMap_ = s.pool.threadMap_.erase tid ∧
         s'.pool.initThreadSize_ ≤ s'.pool.currentThreadNum_))) ∧
    (∀ (tid : Nat) (timedOut : Bool) (dur : Int)
        (runOf : Nat → Except Fault ThreadPool1.Any) (s : ThreadPool1.WState),
      ((∃ s', ThreadPool1.threadFuncIter tid timedOut dur runOf s =
          Except.ok (ThreadPool1.IterOut.exitCull s')) ↔
        (s.pool.taskQue_ = [] ∧ s.pool.isPoolRunning_ = true ∧
         s.pool.poolMode_ = PoolMode.MODE_CACHED ∧ timedOut = true ∧
         dur ≥ ThreadPool1.THREAD_MAX_IDLE_TIME ∧
         s.pool.curThreadNum_ > s.pool.initThreadSize_)) ∧
      (∀ s', ThreadPool1.threadFuncIter tid timedOut dur runOf s =
          Except.ok (ThreadPool1.IterOut.exitCull s') →
        (s'.pool.curThreadNum_ = s.pool.curThreadNum_ - 1 ∧
         s'.pool.idleThreadNum_ = s.pool.idleThreadNum_ - 1 ∧
         s'.pool.threadMap_ = s.pool.threadMap_.erase tid ∧
         s'.pool.initThreadSize_ ≤ s'.pool.curThreadNum_))) := by
  constructor
  · intro tid timedOut dur comp s
    rcases s with ⟨⟨tm, its, mts, cur, idl, q, tsz, tmx, md, rn⟩, ex, fut⟩
    cases q with
    | cons t ts =>
      constructor
      · simp [ThreadPool2.threadFuncIter]
      · intro s' h
        simp [ThreadPool2.threadFuncIter] at h
    | nil =>
      cases rn with
      | false =>
        constructor
        · simp [ThreadPool2.threadFuncIter]
        · intro s' h
          simp [ThreadPool2.threadFuncIter] at h
      | true =>
        rcases md with _ | _
        · constructor
          · simp [ThreadPool2.threadFuncIter]
          · intro s' h
            simp [ThreadPool2.threadFuncIter] at h
        · cases timedOut with
          | false =>
            constructor
            · simp [ThreadPool2.threadFuncIter]
            · intro s' h
              simp [ThreadPool2.threadFuncIter] at h
          | true =>
            by_cases hc : dur ≥ ThreadPool2.THREAD_MAX_IDLE_TIME ∧ cur > its
            · constructor
              · simp [ThreadPool2.threadFuncIter, hc]
              · intro s' h
                simp [ThreadPool2.threadFuncIter, hc] at h
                subst h
                refine ⟨rfl, rfl, rfl, ?_⟩
                have := hc.2
                dsimp only
                omega
            · constructor
              · simp [ThreadPool2.threadFuncIter, hc]
              · intro s' h
                simp [ThreadPool2.threadFuncIter, hc] at h
  · intro tid timedOut dur runOf s
    rcases s with ⟨⟨tm, its, mts, cur, idl, q, tsz, tmx, md, rn⟩, ex⟩
    cases q with
    | cons t ts =>
      constructor
      · cases hr : runOf t with
        | ok a => simp [ThreadPool1.threadFuncIter, hr, ThreadPool1.Task.exec]
        | error e => simp [ThreadPool1.threadFuncIter, hr, ThreadPool1.Task.exec]
      · intro s' h
        cases hr : runOf t with
        | ok a => simp [ThreadPool1.threadFuncIter, hr, ThreadPool1.Task.exec] at h
        | error e => simp [ThreadPool1.threadFuncIter, hr, ThreadPool1.Task.exec] at h
    | nil =>
      cases rn with
      | false =>
        constructor
        · simp [ThreadPool1.threadFuncIter]
        · intro s' h
          simp [ThreadPool1.threadFuncIter] at h
      | true =>
        rcases md with _ | _
        · constructor
          · simp [ThreadPool1.threadFuncIter]
          · intro s' h
            simp [ThreadPool1.threadFuncIter] at h
        · cases timedOut with
          | false =>
            constructor
            · simp [ThreadPool1.threadFuncIter]
            · intro s' h
              simp [ThreadPool1.threadFuncIter] at h
          | true =>
            by_cases hc : dur ≥ ThreadPool1.THREAD_MAX_IDLE_TIME ∧ cur > its
            · constructor
              · simp [ThreadPool1.threadFuncIter, hc]
              · intro s' h
                simp [ThreadPool1.threadFuncIter, hc] at h
                subst h
                refine ⟨rfl, rfl, rfl, ?_⟩
                have := hc.2
                dsimp only
                omega
            · constructor
              · simp [ThreadPool1.threadFuncIter, hc]
              · intro s' h
                simp [ThreadPool1.threadFuncIter, hc] at h

/-- A 2.0 cached pool grown to two workers (ids 0 and 1) above its
baseline of one, fully idle with an empty queue. -/
def idlePool2 : ThreadPool2.ThreadPool :=
  { ThreadPool2.ThreadPool.construct PoolMode.MODE_CACHED 1 4 4 with
    threadMap_ := [0, 1]
    currentThreadNum_ := 2
    idleThreadNum_ := 2
    isRunning_ := true }

/-- A 1.0 cached pool grown to two workers (ids 0 and 1) above its
baseline of one, fully idle with an empty queue. -/
def idlePool1 : ThreadPool1.ThreadPool :=
  { ThreadPool1.ThreadPool.construct 1 4 4 PoolMode.MODE_CACHED with
    threadMap_ := [0, 1]
    curThreadNum_ := 2
    idleThreadNum_ := 2
    isPoolRunning_ := true }

/-- C7 witness: the culling characterization applied at concrete
idle cached pools with worker 1 timing out after 60 seconds. -/
theorem c7_idle_cull_characterization_witness :
    ((∃ s', ThreadPool2.threadFuncIter 1 true 60 okBody2
        ⟨idlePool2, [], []⟩ = ThreadPool2.IterOut.exitCull s') ↔
      (idlePool2.taskQue_ = [] ∧ idlePool2.isRunning_ = true ∧
       idlePool2.poolmode_ = PoolMode.MODE_CACHED ∧ true = true ∧
       (60 : Int) ≥ ThreadPool2.THREAD_MAX_IDLE_TIME ∧
       idlePool2.currentThreadNum_ > idlePool2.initThreadSize_)) ∧
    ((⟨{ idlePool2 with
          threadMap_ := [0]
          currentThreadNum_ := 1
          idleThreadNum_ := 1 }, [], []⟩ :
        ThreadPool2.WState).pool.currentThreadNum_ =
        idlePool2.currentThreadNum_ - 1 ∧
      (⟨{ idlePool2 with
          threadMap_ := [0]
          currentThreadNum_ := 1
          idleThreadNum_ := 1 }, [], []⟩ :
        ThreadPool2.WState).pool.idleThreadNum_ = idlePool2.idleThreadNum_ - 1 ∧
      (⟨{ idlePool2 with
          threadMap_ := [0]
          currentThreadNum_ := 1
          idleThreadNum_ := 1 }, [], []⟩ :
        ThreadPool2.WState).pool.threadMap_ = idlePool2.threadMap_.erase 1 ∧
      (⟨{ idlePool2 with
          threadMap_ := [0]
          currentThreadNum_ := 1
          idleThreadNum_ := 1 }, [], []⟩ :
        ThreadPool2.WState).pool.initThreadSize_ ≤
        (⟨{ idlePool2 with
            threadMap_ := [0]
            currentThreadNum_ := 1
            idleThreadNum_ := 1 }, [], []⟩ :
          ThreadPool2.WState).pool.currentThreadNum_) ∧
    ((∃ s', ThreadPool1.threadFuncIter 1 true 60 okBody1
        ⟨idlePool1, []⟩ = Except.ok (ThreadPool1.IterOut.exitCull s')) ↔
      (idlePool1.taskQue_ = [] ∧ idlePool1.isPoolRunning_ = true ∧
       idlePool1.poolMode_ = PoolMode.MODE_CACHED ∧ true = true ∧
       (60 : Int) ≥ ThreadPool1.THREAD_MAX_IDLE_TIME ∧
       idlePool1.curThreadNum_ > idlePool1.initThreadSize_)) := by
  refine ⟨(c7_idle_cull_characterization.1 1 true 60 okBody2 ⟨idlePool2, [], []⟩).1,
    (c7_idle_cull_characterization.1 1 true 60 okBody2 ⟨idlePool2, [], []⟩).2
      ⟨{ idlePool2 with
          threadMap_ := [0]
          currentThreadNum_ := 1
          idleThreadNum_ := 1 }, [], []⟩ (by decide),
    (c7_idle_cull_characterization.2 1 true 60 okBody1 ⟨idlePool1, []⟩).1⟩

/-- An access threadMap_[i] finds a registered worker exactly when i
is one of the registered keys. -/
theorem threadMapAccess_eq_some (keys : List Nat) (i : Nat) :
    ThreadStart.threadMapAccess keys i = some i ↔ i ∈ keys := by
  by_cases h : i ∈ keys <;> simp [ThreadStart.threadMapAccess, h]

/-- C10: start() registers its initialCount workers under the keys
g0, g0+1, ..., g0+n-1 drawn from the process-global static counter
Thread::generateId_ (whose value g0 is whatever earlier Thread
constructions in the process left behind), but its second loop looks
up the keys 0 .. n-1.  Every lookup finds a just-registered worker
exactly when the global counter was 0 at construction — the first
pool of the process; for any pool whose construction starts at a
positive counter, the lookup of key 0 finds no registered worker, so
threadMap_[0] default-constructs a null handle and ->start()
dereferences it.  In particular, start() leaves the counter at
g0 + n, so for every pool started after a first one (n > 0 workers),
the lookups cannot all succeed. -/
theorem c10_start_lookup_global_counter (g0 n : Nat) (hn : 0 < n) :
    ((∀ i < n, ThreadStart.threadMapAccess
        (ThreadStart.startCreateLoop g0 n).1 i = some i) ↔ g0 = 0) ∧
    (ThreadStart.startCreateLoop g0 n).2 = g0 + n ∧
    (0 < g0 → ThreadStart.threadMapAccess
        (ThreadStart.startCreateLoop g0 n).1 0 = none) ∧
    (∀ m, 0 < m →
      ¬ (∀ i < m, ThreadStart.threadMapAccess
          (ThreadStart.startCreateLoop
            (ThreadStart.startCreateLoop g0 n).2 m).1 i = some i)) := by
  refine ⟨⟨?_, ?_⟩, ThreadStart.startCreateLoop_counter g0 n, ?_, ?_⟩
  · intro hall
    have h0 := (threadMapAccess_eq_some _ 0).1 (hall 0 hn)
    have hmem := (ThreadStart.mem_startCreateLoop g0 n 0).1 h0
    omega
  · intro hg i hi
    subst hg
    rw [threadMapAccess_eq_some]
    exact (ThreadStart.mem_startCreateLoop 0 n i).2 (by omega)
  · intro hg
    have hnm : ¬ (0 ∈ (ThreadStart.startCreateLoop g0 n).1) := by
      rw [ThreadStart.mem_startCreateLoop]
      omega
    simp [ThreadStart.threadMapAccess, hnm]
  · intro m hm hall
    have h0 := (threadMapAccess_eq_some _ 0).1 (hall 0 hm)
    have hmem := (ThreadStart.mem_startCreateLoop _ m 0).1 h0
    rw [ThreadStart.startCreateLoop_counter] at hmem
    omega

/-- C10 witness: the lookup characterization applied at a second pool
whose construction starts with the global counter at 1 and which
starts two workers. -/
theorem c10_start_lookup_global_counter_witness :
    ((∀ i < 2, ThreadStart.threadMapAccess
        (ThreadStart.startCreateLoop 1 2).1 i = some i) ↔ (1 : Nat) = 0) ∧
    (ThreadStart.startCreateLoop 1 2).2 = 1 + 2 ∧
    ((0 : Nat) < 1 → ThreadStart.threadMapAccess
        (ThreadStart.startCreateLoop 1 2).1 0 = none) ∧
    (∀ m, 0 < m →
      ¬ (∀ i < m, ThreadStart.threadMapAccess
          (ThreadStart.startCreateLoop
            (ThreadStart.startCreateLoop 1 2).2 m).1 i = some i)) :=
  c10_start_lookup_global_counter 1 2 (by decide)
